import Mathlib

/-!
Verification of the OpenHands control core against its source.

The embedding below mirrors, in order:
* the LLM completion retry boundary (src/openhands/llm/llm.py),
* the agent-controller session state machine (traffic control, stuck-loop
  detection, context-window truncation, reset protocol) — the controller
  module itself is not part of the provided sources, so it is modelled from
  the specification and pinned where the unit tests
  (src/tests/unit/test_agent_controller.py) assert concrete behaviour,
* the GitHub API routes (src/openhands/server/routes/github.py).
-/

namespace OpenHands

/- ## LLM completion boundary (src/openhands/llm/llm.py) -/

/-- Error kinds raised by the underlying litellm completion call, as they
appear in src/openhands/llm/llm.py and src/tests/unit/test_llm.py. -/
inductive LLMError
  | rateLimitError
  | apiConnectionError
  | internalServerError
  | serviceUnavailableError
  | contextWindowExceededError
  | operationCancelled
deriving DecidableEq, Repr

/-- Mirror of LLM_RETRY_EXCEPTIONS (llm.py line 42): the tuple of exceptions
the completion wrapper retries on.  In the source it is (RateLimitError,). -/
def LLM_RETRY_EXCEPTIONS : List LLMError := [.rateLimitError]

/-- Mirror of the configuration fields of LLMConfig that the completion
wrapper reads (model/api_key/base_url are baked into the litellm partial at
lines 149-163; num_retries and the wait bounds feed the retry decorator at
lines 167-174). -/
structure LLMConfig where
  model : String
  api_key : Option String
  base_url : Option String
  num_retries : Nat
  retry_min_wait : Nat
  retry_max_wait : Nat
  retry_multiplier : Nat
deriving DecidableEq, Repr

/-- Modelled from the spec: the retry adapter (RetryMixin.retry_decorator in
openhands/llm/retry_mixin.py) is not under src/.  Per the spec it retries a
call on the configured retry exceptions up to the configured retry count,
after which the last error propagates; any error outside the retry set
propagates immediately.  The first component of the result is the number of
attempts actually made; the call function receives the 0-based attempt
index. -/
def retryCallAux {α : Type} (retriable : List LLMError)
    (call : Nat → Except LLMError α) :
    Nat → Nat → Nat × Except LLMError α
  | attemptsDone, remaining =>
    match call attemptsDone, remaining with
    | .ok v, _ => (attemptsDone + 1, .ok v)
    | .error e, 0 => (attemptsDone + 1, .error e)
    | .error e, remaining' + 1 =>
      if retriable.contains e then
        retryCallAux retriable call (attemptsDone + 1) remaining'
      else
        (attemptsDone + 1, .error e)

/-- Attempts made by one LLM.completion call, together with its outcome:
the wrapper (llm.py lines 167-175) is decorated with the retry adapter using
LLM_RETRY_EXCEPTIONS and config.num_retries total attempts (the unit test
test_completion_exhausts_retries asserts call_count == num_retries on
exhaustion). -/
def completionAttempts {α : Type} (cfg : LLMConfig)
    (call : Nat → Except LLMError α) : Nat × Except LLMError α :=
  retryCallAux LLM_RETRY_EXCEPTIONS call 0 (cfg.num_retries - 1)

/-- Mirror of the default_config fixture of src/tests/unit/test_llm.py. -/
def testLLMConfig : LLMConfig :=
  { model := "openai/gpt-4o"
    api_key := some "test_key"
    base_url := none
    num_retries := 3
    retry_min_wait := 1
    retry_max_wait := 10
    retry_multiplier := 2 }

/- ### Positional-argument handling of the completion wrapper
   (llm.py lines 179-198 together with the litellm partial at 149-163). -/

/-- Non-list python values as far as the wrapper inspects them: a plain
string (such as a model name) or a message dict. -/
inductive PyScalar
  | str (s : String)
  | dict (pairs : List (String × String))
deriving DecidableEq, Repr

/-- Untyped python values as far as the wrapper inspects them: the wrapper
only distinguishes lists from non-lists (line 198). -/
inductive PyVal
  | scalar (v : PyScalar)
  | list (xs : List PyScalar)
deriving DecidableEq, Repr

/-- Mirror of line 198: messages if isinstance(messages, list) else
[messages]. -/
def ensureList (v : PyVal) : PyVal :=
  match v with
  | .list xs => .list xs
  | .scalar v => .list [v]

/-- The request the wrapper hands to the underlying litellm completion:
model, api_key and base_url were fixed by the partial built from the config
(lines 149-163), the messages kwarg and any leftover positional arguments
come from the wrapper body. -/
structure ForwardedRequest where
  model : String
  api_key : Option String
  base_url : Option String
  messages : PyVal
  extraPositional : List PyVal
deriving DecidableEq, Repr

/-- Mirror of the wrapper's argument handling (llm.py lines 179-198, 220-223
and 237): with more than one positional argument the first is dropped and
the second becomes the messages kwarg, the rest stay positional; otherwise
a messages kwarg is used when present; an empty messages list raises
ValueError. -/
def wrapperForward (cfg : LLMConfig) (args : List PyVal)
    (kwargsMessages : Option PyVal) : Except String ForwardedRequest :=
  let messages0 : PyVal :=
    if args.length > 1 then
      args.getD 1 (.list [])
    else
      match kwargsMessages with
      | some m => m
      | none => .list []
  let argsRest : List PyVal := if args.length > 1 then args.drop 2 else args
  let messages := ensureList messages0
  if messages = .list [] then
    .error "The messages list is empty. At least one message is required."
  else
    .ok { model := cfg.model
          api_key := cfg.api_key
          base_url := cfg.base_url
          messages := messages
          extraPositional := argsRest }

/- ## Agent controller session state machine.
   The controller module (openhands/controller/agent_controller.py) is not
   among the provided sources; everything in this section is modelled from
   the specification, with concrete behaviour pinned by the assertions of
   src/tests/unit/test_agent_controller.py. -/

/-- Source of an event, per the spec's data model. -/
inductive EventSource
  | user
  | agent
  | environment
deriving DecidableEq, Repr

/-- Agent states named by the spec's state machine. -/
inductive AgentState
  | loading
  | running
  | pausedAgent
  | awaitingUserInput
  | finished
  | error
  | stopped
deriving DecidableEq, Repr

/-- Traffic control status of a session, per the spec's data model. -/
inductive TrafficControlState
  | normal
  | throttling
  | pausedTraffic
deriving DecidableEq, Repr

/-- Event payloads used by the controller scenarios: actions
(MessageAction, SystemMessageAction, CmdRunAction) and observations
(ErrorObservation, AgentStateChangedObservation). -/
inductive EventPayload
  | messageAction (content : String)
  | systemMessageAction (content : String)
  | cmdRunAction (command : String)
  | errorObservation (content : String)
  | agentStateChangedObservation (st : AgentState)
deriving DecidableEq, Repr

/-- An event of the stream: sequential id, source, payload, optional cause
(the id of the Action an Observation resolves) and an opaque
tool_call_metadata correlation blob (modelled as a number). -/
structure Event where
  id : Nat
  source : EventSource
  payload : EventPayload
  cause : Option Nat := none
  tool_call_metadata : Option Nat := none
deriving DecidableEq, Repr

/-- True for Action payloads (as opposed to Observations). -/
def isActionEvent (e : Event) : Bool :=
  match e.payload with
  | .messageAction _ => true
  | .systemMessageAction _ => true
  | .cmdRunAction _ => true
  | .errorObservation _ => false
  | .agentStateChangedObservation _ => false

/-- True for Observation payloads. -/
def isObservationEvent (e : Event) : Bool := !(isActionEvent e)

/-- True when the event is an ErrorObservation. -/
def isErrorObservation (e : Event) : Bool :=
  match e.payload with
  | .errorObservation _ => true
  | _ => false

/-- True when the event was sourced from the user. -/
def isUserSourced (e : Event) : Bool :=
  match e.source with
  | .user => true
  | _ => false

/-- Metrics record: monotonically accumulated cost (exact rationals stand
in for python floats; the scenario values 10 and 10.1 are exact). -/
structure Metrics where
  accumulated_cost : ℚ := 0
deriving DecidableEq, Repr

/-- Session state of one controller, per the spec's data model, together
with the headless flag and the max_iterations value the controller was
constructed with (needed by the interactive extension policy). -/
structure SessionState where
  history : List Event := []
  iteration : Nat := 0
  max_iterations : Nat
  initial_max_iterations : Nat
  max_budget_per_task : Option ℚ := none
  metrics : Metrics := {}
  agent_state : AgentState := .loading
  traffic_control_state : TrafficControlState := .normal
  last_error : Option String := none
  pending_action : Option Event := none
  headless_mode : Bool := true
deriving DecidableEq, Repr

/-- Verdict of the traffic control guard. -/
inductive TrafficVerdict
  | proceed
  | throttleIteration
  | throttleBudget
  | stuckLoop
deriving DecidableEq, Repr

/-- Modelled from the spec: the stuck-loop detection threshold — the number
of trailing identical Action/error-Observation pairs that declares the run
stuck.  The unit tests pin the scenario at 4 repeats (iteration == 4). -/
def stuck_detection_threshold : Nat := 4

/-- Modelled from the spec: stuck-loop detection examines the trailing
window of Action/Observation pairs; it fires when the last
stuck_detection_threshold pairs consist of structurally identical Actions
each followed by an error Observation. -/
def stuckDetected (h : List Event) : Bool :=
  match h.drop (h.length - 2 * stuck_detection_threshold) with
  | [a1, o1, a2, o2, a3, o3, a4, o4] =>
    ([a1, a2, a3, a4].all fun a => isActionEvent a && (a.payload == a1.payload))
      && ([o1, o2, o3, o4].all isErrorObservation)
  | _ => false

/-- Modelled from the spec: the traffic control guard, a pure function over
session state.  Stuck-loop detection is terminal in all modes; the
iteration cap fires when iteration >= max_iterations; the budget cap fires
when max_budget_per_task is set and accumulated_cost is strictly greater
than it. -/
def traffic_control (s : SessionState) : TrafficVerdict :=
  if stuckDetected s.history then .stuckLoop
  else if s.max_iterations ≤ s.iteration then .throttleIteration
  else
    match s.max_budget_per_task with
    | some budget =>
      if budget < s.metrics.accumulated_cost then .throttleBudget else .proceed
    | none => .proceed

/-- Outcome of invoking the agent for one step: an action (with optional
tool-call metadata), a context-window-overflow error, or a fatal error. -/
inductive AgentStepResult
  | action (payload : EventPayload) (metadata : Option Nat)
  | contextWindowExceeded
  | fatalError (msg : String)
deriving DecidableEq, Repr

/-- Append an event to the stream/history, assigning the next sequential
id. -/
def appendEvent (s : SessionState) (source : EventSource)
    (payload : EventPayload) (cause : Option Nat) (meta : Option Nat) :
    SessionState × Event :=
  let e : Event :=
    { id := s.history.length
      source := source
      payload := payload
      cause := cause
      tool_call_metadata := meta }
  ({ s with history := s.history ++ [e] }, e)

/-- Error string of the stuck-loop verdict, pinned by the unit tests. -/
def stuck_loop_error : String := "AgentStuckInLoopError: Agent got stuck in a loop"

/-- Modelled from the spec: the first USER-sourced message of the history
(the task anchor retained by truncation). -/
def firstUserMessage (h : List Event) : Option Event :=
  h.find? isUserSourced

/-- Remove the first USER-sourced event from the history, keeping the rest
in order. -/
def removeFirstUser : List Event → List Event
  | [] => []
  | e :: rest => if isUserSourced e then rest else e :: removeFirstUser rest

/-- Modelled from the spec: context-window-overflow truncation — keep the
first USER-sourced message, concatenated with the trailing half (by count,
rounded up so at least one element survives) of the remaining history. -/
def truncateOnOverflow (h : List Event) : List Event :=
  match firstUserMessage h with
  | none => h.drop (h.length / 2)
  | some u =>
    let rest := removeFirstUser h
    u :: rest.drop (rest.length / 2)

/-- Modelled from the spec: one controller step plus the environment's
reply.  While RUNNING, the guard is evaluated first: a stuck verdict is
terminal in all modes (ERROR, distinct stuck-loop last_error, and a final
state-change event on the stream); an iteration/budget throttle verdict
sets traffic_control_state = THROTTLING and agent_state = ERROR (the unit
tests assert ERROR in headless and in interactive mode alike).  Otherwise
the agent is invoked: a context-window overflow truncates history in place
without touching the iteration counter; an action is published (sourced
AGENT) and, when the environment replies, the matching observation is
appended and the iteration counter advances. -/
def controllerCycle (agent : SessionState → AgentStepResult)
    (env : Event → Option EventPayload) (s : SessionState) : SessionState :=
  if s.agent_state = .running then
    match traffic_control s with
    | .stuckLoop =>
      let s1 := { s with agent_state := .error, last_error := some stuck_loop_error }
      (appendEvent s1 .environment (.agentStateChangedObservation .error) none none).1
    | .throttleIteration =>
      { s with traffic_control_state := .throttling
               agent_state := .error
               last_error := some "Agent reached maximum iteration" }
    | .throttleBudget =>
      { s with traffic_control_state := .throttling
               agent_state := .error
               last_error := some "Task budget exceeded" }
    | .proceed =>
      match agent s with
      | .contextWindowExceeded =>
        { s with history := truncateOnOverflow s.history }
      | .fatalError msg =>
        { s with agent_state := .error, last_error := some msg }
      | .action p meta =>
        let (s1, e) := appendEvent s .agent p none meta
        let s2 := { s1 with pending_action := some e }
        match env e with
        | some obsPayload =>
          let (s3, _) := appendEvent s2 .environment obsPayload (some e.id) none
          { s3 with pending_action := none, iteration := s3.iteration + 1 }
        | none => s2
  else s

/-- Modelled from the spec: handling of a new USER message — it is appended
to the stream, and, only in interactive (non-headless) mode, a throttled
controller extends max_iterations to current iteration plus the original
max_iterations and resets traffic control to NORMAL; the agent then
resumes RUNNING. -/
def onUserMessage (s : SessionState) (content : String) : SessionState :=
  let s1 := (appendEvent s .user (.messageAction content) none none).1
  let s2 :=
    if s1.traffic_control_state = .throttling ∧ s1.headless_mode = false then
      { s1 with max_iterations := s1.iteration + s1.initial_max_iterations
                traffic_control_state := .normal }
    else s1
  { s2 with agent_state := .running }

/-- Run the controller loop: repeat controllerCycle while the agent is
RUNNING, up to the given amount of fuel. -/
def runLoop (agent : SessionState → AgentStepResult)
    (env : Event → Option EventPayload) :
    Nat → SessionState → SessionState
  | 0, s => s
  | fuel + 1, s =>
    if s.agent_state = .running then
      runLoop agent env fuel (controllerCycle agent env s)
    else s

/-- Observation content synthesized by reset() for an unexecuted pending
action, pinned by test_reset_with_pending_action_no_observation. -/
def not_executed_message : String := "The action has not been executed."

/-- True when some Observation in the history carries the given
tool_call_metadata. -/
def hasObservationWithMetadata (h : List Event) (m : Nat) : Bool :=
  h.any fun e => isObservationEvent e && (e.tool_call_metadata == some m)

/-- Result of the controller's reset protocol: the new session state, the
events appended to the stream, and whether the Agent's own reset hook was
invoked. -/
structure ResetOutcome where
  state : SessionState
  appendedEvents : List Event
  agentResetInvoked : Bool
deriving DecidableEq, Repr

/-- Modelled from the spec: the reset protocol — if a pending action exists
and carries tool_call_metadata, and no Observation in history already
carries the same metadata, synthesize and append exactly one error
Observation (content pinned by the unit tests), sourced AGENT, with cause
set to the pending action's id and the same metadata; otherwise append
nothing.  The pending action is cleared unconditionally and the Agent's
reset hook is always invoked. -/
def controllerReset (s : SessionState) : ResetOutcome :=
  let appended : List Event :=
    match s.pending_action with
    | some a =>
      match a.tool_call_metadata with
      | some m =>
        if hasObservationWithMetadata s.history m then []
        else
          [{ id := s.history.length
             source := .agent
             payload := .errorObservation not_executed_message
             cause := some a.id
             tool_call_metadata := some m }]
      | none => []
    | none => []
  { state := { s with pending_action := none, history := s.history ++ appended }
    appendedEvents := appended
    agentResetInvoked := true }

/- ## GitHub API routes (src/openhands/server/routes/github.py) -/

/-- Typed errors raised by the GitHub service client: GhAuthenticationError
and GHUnknownException. -/
inductive GhServiceError
  | authenticationError (msg : String)
  | unknownException (msg : String)
deriving DecidableEq, Repr

/-- Response of a route: either the payload of a successful service call,
or a JSONResponse with an HTTP status code and a string content. -/
inductive RouteResponse (α : Type)
  | payload (val : α)
  | jsonError (statusCode : Nat) (content : String)
deriving DecidableEq, Repr

/-- Outcome of one route invocation: the response, and whether the
GithubServiceImpl client was constructed (equivalently, whether the
external service was reached). -/
structure RouteOutcome (α : Type) where
  response : RouteResponse α
  clientConstructed : Bool
deriving DecidableEq, Repr

/-- Content of the 401 returned on a non-github token type (github.py). -/
def invalid_token_message : String := "Invalid token type. GitHub token required."

/-- Repository record returned by the service (fields irrelevant to the
routes' control flow). -/
structure GitHubRepository where
  full_name : String
deriving DecidableEq, Repr

/-- User record returned by the service. -/
structure GitHubUser where
  login : String
deriving DecidableEq, Repr

/-- Suggested task record returned by the service. -/
structure SuggestedTask where
  title : String
deriving DecidableEq, Repr

/-- Mirror of the /repositories route (github.py lines 18-56): a non-github
token type returns 401 before the client is constructed; otherwise the
service result is returned, GhAuthenticationError maps to 401 and
GHUnknownException to 500, each with the error message. -/
def get_github_repositories (token_type : String)
    (service : Except GhServiceError (List GitHubRepository)) :
    RouteOutcome (List GitHubRepository) :=
  if token_type ≠ "github" then
    { response := .jsonError 401 invalid_token_message, clientConstructed := false }
  else
    match service with
    | .ok repos => { response := .payload repos, clientConstructed := true }
    | .error (.authenticationError e) =>
      { response := .jsonError 401 e, clientConstructed := true }
    | .error (.unknownException e) =>
      { response := .jsonError 500 e, clientConstructed := true }

/-- Mirror of the /user route (github.py lines 59-91). -/
def get_github_user (token_type : String)
    (service : Except GhServiceError GitHubUser) : RouteOutcome GitHubUser :=
  if token_type ≠ "github" then
    { response := .jsonError 401 invalid_token_message, clientConstructed := false }
  else
    match service with
    | .ok user => { response := .payload user, clientConstructed := true }
    | .error (.authenticationError e) =>
      { response := .jsonError 401 e, clientConstructed := true }
    | .error (.unknownException e) =>
      { response := .jsonError 500 e, clientConstructed := true }

/-- Mirror of the /installations route (github.py lines 94-126). -/
def get_github_installation_ids (token_type : String)
    (service : Except GhServiceError (List Int)) : RouteOutcome (List Int) :=
  if token_type ≠ "github" then
    { response := .jsonError 401 invalid_token_message, clientConstructed := false }
  else
    match service with
    | .ok ids => { response := .payload ids, clientConstructed := true }
    | .error (.authenticationError e) =>
      { response := .jsonError 401 e, clientConstructed := true }
    | .error (.unknownException e) =>
      { response := .jsonError 500 e, clientConstructed := true }

/-- Mirror of the /search/repositories route (github.py lines 129-167). -/
def search_github_repositories (token_type : String)
    (service : Except GhServiceError (List GitHubRepository)) :
    RouteOutcome (List GitHubRepository) :=
  if token_type ≠ "github" then
    { response := .jsonError 401 invalid_token_message, clientConstructed := false }
  else
    match service with
    | .ok repos => { response := .payload repos, clientConstructed := true }
    | .error (.authenticationError e) =>
      { response := .jsonError 401 e, clientConstructed := true }
    | .error (.unknownException e) =>
      { response := .jsonError 500 e, clientConstructed := true }

/-- Mirror of the /suggested-tasks route (github.py lines 170-208); the
error branches use the literal status codes 401 and 500. -/
def get_suggested_tasks (token_type : String)
    (service : Except GhServiceError (List SuggestedTask)) :
    RouteOutcome (List SuggestedTask) :=
  if token_type ≠ "github" then
    { response := .jsonError 401 invalid_token_message, clientConstructed := false }
  else
    match service with
    | .ok tasks => { response := .payload tasks, clientConstructed := true }
    | .error (.authenticationError e) =>
      { response := .jsonError 401 e, clientConstructed := true }
    | .error (.unknownException e) =>
      { response := .jsonError 500 e, clientConstructed := true }

/- ## Concrete scenarios taken from src/tests/unit/test_agent_controller.py
   and src/tests/unit/test_llm.py -/

/-- Agent of the stuck-loop tests: it always emits the same
CmdRunAction(command = ls). -/
def stuckAgent : SessionState → AgentStepResult :=
  fun _ => .action (.cmdRunAction "ls") none

/-- Environment of the stuck-loop tests: every action is answered with the
same error observation. -/
def stuckEnv : Event → Option EventPayload :=
  fun _ => some (.errorObservation "Non fatal error here to trigger loop")

/-- Agent that is never reached in the throttling scenarios. -/
def idleAgent : SessionState → AgentStepResult :=
  fun _ => .fatalError "unreachable"

/-- Environment that never replies. -/
def noEnv : Event → Option EventPayload := fun _ => none

/-- Initial state of the stuck-loop run: one user message and one system
message on the stream, agent RUNNING, the default iteration cap of 100. -/
def initialStuckState (headless : Bool) : SessionState :=
  let s0 : SessionState :=
    { max_iterations := 100
      initial_max_iterations := 100
      agent_state := .running
      headless_mode := headless }
  let s1 := (appendEvent s0 .user (.messageAction "Test message") none none).1
  (appendEvent s1 .agent (.systemMessageAction "System message") none none).1

/-- State of test_max_iterations_extension just before the throttling step:
max_iterations = 10 and iteration = 10, agent RUNNING. -/
def iterScenario (headless : Bool) : SessionState :=
  { max_iterations := 10
    initial_max_iterations := 10
    iteration := 10
    agent_state := .running
    headless_mode := headless }

/-- State of test_step_max_budget / test_step_max_budget_headless:
max_budget_per_task = 10 and accumulated cost 10.1 (written as the exact
rational 101/10), agent RUNNING. -/
def budgetScenario (headless : Bool) : SessionState :=
  { max_iterations := 10
    initial_max_iterations := 10
    max_budget_per_task := some 10
    metrics := { accumulated_cost := mkRat 101 10 }
    agent_state := .running
    headless_mode := headless }

/-- The four-message history of the truncation test: a USER-sourced first
message followed by three agent messages. -/
def overflowHistory : List Event :=
  [ { id := 0, source := .user, payload := .messageAction "Test message 0" },
    { id := 1, source := .agent, payload := .messageAction "Test message 1" },
    { id := 2, source := .agent, payload := .messageAction "Test message 2" },
    { id := 3, source := .agent, payload := .messageAction "Test message 3" } ]

/-- Controller state of the truncation test, RUNNING over the four-message
history. -/
def overflowScenario : SessionState :=
  { max_iterations := 10
    initial_max_iterations := 10
    history := overflowHistory
    agent_state := .running }

/-- Agent of the truncation test: it raises ContextWindowExceededError. -/
def overflowAgent : SessionState → AgentStepResult :=
  fun _ => .contextWindowExceeded

/-- Reset scenario with a pending action carrying tool_call_metadata and no
matching observation in history. -/
def resetScenarioNoObs : SessionState :=
  { max_iterations := 10
    initial_max_iterations := 10
    pending_action := some
      { id := 0
        source := .agent
        payload := .cmdRunAction "test"
        tool_call_metadata := some 7 } }

/-- Reset scenario where an observation with the same tool_call_metadata is
already in history. -/
def resetScenarioWithObs : SessionState :=
  { resetScenarioNoObs with
      history :=
        [ { id := 0
            source := .environment
            payload := .errorObservation "Previous error"
            tool_call_metadata := some 7 } ] }

/- ## Theorems -/

/-- C1: evaluation of the completion retry boundary at the failing input of
test_completion_exhausts_retries.  With the test configuration
(num_retries = 3), a persistent APIConnectionError is NOT retried — exactly
one attempt is made and the error propagates — because LLM_RETRY_EXCEPTIONS
(llm.py line 42) contains only RateLimitError, contradicting the claim and
the repository's own unit tests, which expect num_retries attempts.  A
persistent RateLimitError, by contrast, is retried until the configured
num_retries attempts are exhausted and then propagates. -/
theorem llm_connection_error_not_retried :
    completionAttempts testLLMConfig
        (fun _ => (.error .apiConnectionError : Except LLMError Unit))
      = (1, .error .apiConnectionError)
    ∧ completionAttempts testLLMConfig
        (fun _ => (.error .rateLimitError : Except LLMError Unit))
      = (3, .error .rateLimitError) :=
  ⟨rfl, rfl⟩

/-- C2: an agent that always emits the same CmdRunAction, each answered by
an error Observation, is declared stuck in both headless and interactive
modes: starting from one user message and one system message, the run ends
with iteration = 4 (the detection threshold), agent_state = ERROR, the
distinct stuck-loop last_error, and exactly 11 events on the stream. -/
theorem stuck_loop_scenario :
    ∀ headless : Bool,
      (runLoop stuckAgent stuckEnv 10 (initialStuckState headless)).iteration = 4
      ∧ stuck_detection_threshold = 4
      ∧ (runLoop stuckAgent stuckEnv 10 (initialStuckState headless)).agent_state
          = .error
      ∧ (runLoop stuckAgent stuckEnv 10 (initialStuckState headless)).last_error
          = some stuck_loop_error
      ∧ (runLoop stuckAgent stuckEnv 10 (initialStuckState headless)).history.length
          = 11 := by
  decide

/-- C3: with max_budget_per_task = 10 and accumulated cost 10.1, the very
next step sets traffic_control_state = THROTTLING and agent_state = ERROR
in both headless and interactive modes, whatever the agent and environment
would have done; and the guard's budget verdict, for any state the earlier
guard clauses do not capture, holds exactly when the accumulated cost is
strictly greater than the configured budget. -/
theorem budget_cap_scenario :
    (∀ (headless : Bool) (agent : SessionState → AgentStepResult)
        (env : Event → Option EventPayload),
        (budgetScenario headless).metrics.accumulated_cost = 10.1
        ∧ (controllerCycle agent env (budgetScenario headless)).traffic_control_state
            = .throttling
        ∧ (controllerCycle agent env (budgetScenario headless)).agent_state = .error)
    ∧ (∀ (s : SessionState) (budget : ℚ),
        s.max_budget_per_task = some budget →
        stuckDetected s.history = false →
        s.iteration < s.max_iterations →
        (traffic_control s = .throttleBudget ↔ budget < s.metrics.accumulated_cost)) := by
  constructor
  · intro headless _ _
    refine ⟨by norm_num [budgetScenario], ?_⟩
    cases headless <;> exact ⟨rfl, rfl⟩
  · intro s budget hb hstuck hiter
    have hle : ¬ s.max_iterations ≤ s.iteration := Nat.not_le.mpr hiter
    simp only [traffic_control, hstuck, hb, hle, Bool.false_eq_true, if_false]
    split_ifs with hgt
    · simp [hgt]
    · simp [hgt]

/-- C3 witness: the guard's budget clause evaluated at the concrete
throttling scenario. -/
theorem budget_cap_scenario_witness :
    traffic_control (budgetScenario true) = .throttleBudget
      ↔ (10 : ℚ) < (budgetScenario true).metrics.accumulated_cost :=
  budget_cap_scenario.2 (budgetScenario true) 10 rfl rfl (by decide)

/-- C4: interactive controller with max_iterations = 10 at iteration 10 —
a step throttles the run (THROTTLING, ERROR); a subsequent user message
extends max_iterations to iteration + original max_iterations = 20, resets
traffic control to NORMAL and resumes RUNNING.  The same scenario with a
headless controller leaves max_iterations at 10 after a new user message,
and its step still throttles to THROTTLING and ERROR. -/
theorem max_iterations_extension_scenario :
    ∀ (agent : SessionState → AgentStepResult) (env : Event → Option EventPayload),
      (controllerCycle agent env (iterScenario false)).traffic_control_state
          = .throttling
      ∧ (controllerCycle agent env (iterScenario false)).agent_state = .error
      ∧ (onUserMessage (controllerCycle agent env (iterScenario false))
            "Test message").max_iterations = 20
      ∧ (onUserMessage (controllerCycle agent env (iterScenario false))
            "Test message").traffic_control_state = .normal
      ∧ (onUserMessage (controllerCycle agent env (iterScenario false))
            "Test message").agent_state = .running
      ∧ (onUserMessage (iterScenario true) "Test message").max_iterations = 10
      ∧ (controllerCycle agent env
            (onUserMessage (iterScenario true) "Test message")).traffic_control_state
          = .throttling
      ∧ (controllerCycle agent env
            (onUserMessage (iterScenario true) "Test message")).agent_state
          = .error :=
  fun _ _ => ⟨rfl, rfl, rfl, rfl, rfl, rfl, rfl, rfl⟩

/-- C5 counterexample: at the concrete interactive throttling scenarios of
the unit tests (iteration cap hit, and budget cap exceeded), the next step
sets agent_state to ERROR, not to PAUSED as the claim states. -/
theorem interactive_throttle_not_paused :
    (controllerCycle idleAgent noEnv (iterScenario false)).traffic_control_state
        = .throttling
    ∧ (controllerCycle idleAgent noEnv (iterScenario false)).agent_state
        ≠ .pausedAgent
    ∧ (controllerCycle idleAgent noEnv (iterScenario false)).agent_state = .error
    ∧ (controllerCycle idleAgent noEnv (budgetScenario false)).agent_state
        ≠ .pausedAgent
    ∧ (controllerCycle idleAgent noEnv (budgetScenario false)).agent_state
        = .error := by
  decide

/-- C5 amended: when the guard signals iteration-cap or budget-cap exceeded
and the controller runs interactively, it sets traffic_control_state =
THROTTLING and transitions agent_state to ERROR (exactly as in headless
mode); the interactive run is nonetheless recoverable: a subsequent user
message resumes RUNNING and resets traffic control to NORMAL. -/
theorem interactive_throttle_sets_error :
    ∀ (agent : SessionState → AgentStepResult) (env : Event → Option EventPayload),
      ((controllerCycle agent env (iterScenario false)).traffic_control_state
          = .throttling
        ∧ (controllerCycle agent env (iterScenario false)).agent_state = .error)
      ∧ ((controllerCycle agent env (budgetScenario false)).traffic_control_state
          = .throttling
        ∧ (controllerCycle agent env (budgetScenario false)).agent_state = .error)
      ∧ (onUserMessage (controllerCycle agent env (iterScenario false))
            "continue").agent_state = .running
      ∧ (onUserMessage (controllerCycle agent env (iterScenario false))
            "continue").traffic_control_state = .normal :=
  fun _ _ => ⟨⟨rfl, rfl⟩, ⟨rfl, rfl⟩, rfl, rfl⟩

/-- C6: on a context-window overflow the controller does not fail the run:
the step leaves the state unchanged except that history is truncated (so
the iteration counter is not incremented and the agent stays RUNNING);
truncation keeps at least one element of a nonempty history; and on the
concrete test history the four messages [user_msg0, msg1, msg2, msg3]
become [user_msg0, msg2, msg3]. -/
theorem context_window_truncation :
    (∀ (agent : SessionState → AgentStepResult) (env : Event → Option EventPayload)
        (s : SessionState),
        s.agent_state = .running →
        traffic_control s = .proceed →
        agent s = .contextWindowExceeded →
        controllerCycle agent env s = { s with history := truncateOnOverflow s.history })
    ∧ (∀ h : List Event, h ≠ [] → truncateOnOverflow h ≠ [])
    ∧ (controllerCycle overflowAgent noEnv overflowScenario).history
        = [{ id := 0, source := .user, payload := .messageAction "Test message 0" },
           { id := 2, source := .agent, payload := .messageAction "Test message 2" },
           { id := 3, source := .agent, payload := .messageAction "Test message 3" }]
    ∧ (controllerCycle overflowAgent noEnv overflowScenario).iteration
        = overflowScenario.iteration
    ∧ (controllerCycle overflowAgent noEnv overflowScenario).agent_state = .running := by
  refine ⟨?_, ?_, by decide, by decide, by decide⟩
  · intro agent env s h1 h2 h3
    simp [controllerCycle, h1, h2, h3]
  · intro h hne
    unfold truncateOnOverflow
    cases hf : firstUserMessage h with
    | some u => simp
    | none =>
      have hlen : 0 < h.length := List.length_pos.mpr hne
      have hlt : h.length / 2 < h.length := Nat.div_lt_self hlen (by omega)
      simp [List.drop_eq_nil_iff]
      omega

/-- C6 witness: the overflow step evaluated at the concrete test state. -/
theorem context_window_truncation_witness :
    controllerCycle overflowAgent noEnv overflowScenario
      = { overflowScenario with
            history := truncateOnOverflow overflowScenario.history } :=
  context_window_truncation.1 overflowAgent noEnv overflowScenario rfl rfl rfl

/-- C7 counterexample: at the concrete reset scenario of
test_reset_with_pending_action_no_observation, reset appends exactly one
observation, but its content is "The action has not been executed."
(capitalised, with a final period), so no appended event carries the
content string stated by the claim. -/
theorem reset_observation_content_counterexample :
    (controllerReset resetScenarioNoObs).appendedEvents.length = 1
    ∧ ∀ e ∈ (controllerReset resetScenarioNoObs).appendedEvents,
        e.payload ≠ .errorObservation "the action has not been executed" := by
  decide

/-- C7 amended: for every pending Action carrying tool_call_metadata,
after reset exactly one of two outcomes holds — either an Observation with
the same tool_call_metadata already exists in history and nothing is
appended, or exactly one error Observation with content "The action has
not been executed.", sourced AGENT, with cause the pending action's id, is
appended; in every case the pending action is cleared and the Agent's
reset hook is invoked. -/
theorem reset_pairing_invariant (s : SessionState) (a : Event) (m : Nat)
    (hp : s.pending_action = some a) (hm : a.tool_call_metadata = some m) :
    (hasObservationWithMetadata s.history m = true →
       (controllerReset s).appendedEvents = [])
    ∧ (hasObservationWithMetadata s.history m = false →
       (controllerReset s).appendedEvents
         = [{ id := s.history.length
              source := .agent
              payload := .errorObservation not_executed_message
              cause := some a.id
              tool_call_metadata := some m }])
    ∧ (controllerReset s).state.pending_action = none
    ∧ (controllerReset s).agentResetInvoked = true := by
  refine ⟨?_, ?_, ?_, ?_⟩
  · intro hobs; simp [controllerReset, hp, hm, hobs]
  · intro hobs; simp [controllerReset, hp, hm, hobs]
  · simp [controllerReset]
  · simp [controllerReset]

/-- C7 witness: the pairing invariant evaluated at the concrete scenario
with no matching observation in history. -/
theorem reset_pairing_invariant_witness :
    (hasObservationWithMetadata resetScenarioNoObs.history 7 = false →
       (controllerReset resetScenarioNoObs).appendedEvents
         = [{ id := 0
              source := .agent
              payload := .errorObservation not_executed_message
              cause := some 0
              tool_call_metadata := some 7 }])
    ∧ (controllerReset resetScenarioNoObs).state.pending_action = none :=
  let h := reset_pairing_invariant resetScenarioNoObs
    { id := 0
      source := .agent
      payload := .cmdRunAction "test"
      tool_call_metadata := some 7 } 7 rfl rfl
  ⟨h.2.1, h.2.2.1⟩

/-- C8: a cancellation signal raised by the underlying completion call is
never retried — whatever the configured retry count, exactly one attempt
is made and OperationCancelled propagates immediately. -/
theorem completion_cancellation_not_retried {α : Type} (cfg : LLMConfig)
    (call : Nat → Except LLMError α)
    (h : call 0 = .error .operationCancelled) :
    completionAttempts cfg call = (1, .error .operationCancelled) := by
  unfold completionAttempts
  cases hr : cfg.num_retries - 1 with
  | zero => unfold retryCallAux; rw [h]
  | succ n => unfold retryCallAux; rw [h]; simp [LLM_RETRY_EXCEPTIONS]

/-- C8 witness: the cancellation behaviour evaluated with the unit-test
configuration (num_retries = 3). -/
theorem completion_cancellation_not_retried_witness :
    (fun _ : Nat => (.error .operationCancelled : Except LLMError Unit)) 0
        = .error .operationCancelled
    ∧ completionAttempts testLLMConfig
        (fun _ : Nat => (.error .operationCancelled : Except LLMError Unit))
        = (1, .error .operationCancelled) :=
  ⟨rfl, completion_cancellation_not_retried testLLMConfig _ rfl⟩

/-- C9: for each of the five GitHub routes, a non-github token type yields
HTTP 401 with the invalid-token message and the service client is never
constructed; with a github token, GhAuthenticationError maps to HTTP 401
and GHUnknownException to HTTP 500, each carrying the error message. -/
theorem github_routes_auth_and_error_mapping :
    (∀ (t : String) (svc : Except GhServiceError (List GitHubRepository)),
        t ≠ "github" →
        get_github_repositories t svc
          = { response := .jsonError 401 invalid_token_message
              clientConstructed := false })
    ∧ (∀ m, get_github_repositories "github" (.error (.authenticationError m))
          = { response := .jsonError 401 m, clientConstructed := true })
    ∧ (∀ m, get_github_repositories "github" (.error (.unknownException m))
          = { response := .jsonError 500 m, clientConstructed := true })
    ∧ (∀ (t : String) (svc : Except GhServiceError GitHubUser),
        t ≠ "github" →
        get_github_user t svc
          = { response := .jsonError 401 invalid_token_message
              clientConstructed := false })
    ∧ (∀ m, get_github_user "github" (.error (.authenticationError m))
          = { response := .jsonError 401 m, clientConstructed := true })
    ∧ (∀ m, get_github_user "github" (.error (.unknownException m))
          = { response := .jsonError 500 m, clientConstructed := true })
    ∧ (∀ (t : String) (svc : Except GhServiceError (List Int)),
        t ≠ "github" →
        get_github_installation_ids t svc
          = { response := .jsonError 401 invalid_token_message
              clientConstructed := false })
    ∧ (∀ m, get_github_installation_ids "github" (.error (.authenticationError m))
          = { response := .jsonError 401 m, clientConstructed := true })
    ∧ (∀ m, get_github_installation_ids "github" (.error (.unknownException m))
          = { response := .jsonError 500 m, clientConstructed := true })
    ∧ (∀ (t : String) (svc : Except GhServiceError (List GitHubRepository)),
        t ≠ "github" →
        search_github_repositories t svc
          = { response := .jsonError 401 invalid_token_message
              clientConstructed := false })
    ∧ (∀ m, search_github_repositories "github" (.error (.authenticationError m))
          = { response := .jsonError 401 m, clientConstructed := true })
    ∧ (∀ m, search_github_repositories "github" (.error (.unknownException m))
          = { response := .jsonError 500 m, clientConstructed := true })
    ∧ (∀ (t : String) (svc : Except GhServiceError (List SuggestedTask)),
        t ≠ "github" →
        get_suggested_tasks t svc
          = { response := .jsonError 401 invalid_token_message
              clientConstructed := false })
    ∧ (∀ m, get_suggested_tasks "github" (.error (.authenticationError m))
          = { response := .jsonError 401 m, clientConstructed := true })
    ∧ (∀ m, get_suggested_tasks "github" (.error (.unknownException m))
          = { response := .jsonError 500 m, clientConstructed := true }) :=
  ⟨fun _ _ hne => if_pos hne, fun _ => rfl, fun _ => rfl,
   fun _ _ hne => if_pos hne, fun _ => rfl, fun _ => rfl,
   fun _ _ hne => if_pos hne, fun _ => rfl, fun _ => rfl,
   fun _ _ hne => if_pos hne, fun _ => rfl, fun _ => rfl,
   fun _ _ hne => if_pos hne, fun _ => rfl, fun _ => rfl⟩

/-- C9 witness: a bearer token on the repositories route is rejected with
401 before the client is constructed. -/
theorem github_routes_auth_witness :
    get_github_repositories "bearer" (.ok [])
      = { response := .jsonError 401 invalid_token_message
          clientConstructed := false } :=
  github_routes_auth_and_error_mapping.1 "bearer" (.ok []) (by decide)

/-- C10: a completion call with two or more positional arguments ignores
the first one (the caller-supplied model): the forwarded request always
carries the configured model, api_key and base_url, the second positional
argument becomes the messages list, and the remaining positional arguments
are passed through.  In particular the forwarded request is identical
whatever the first positional argument was. -/
theorem completion_positional_model_ignored (cfg : LLMConfig)
    (a a' b : PyVal) (rest : List PyVal) (kw : Option PyVal)
    (h : ensureList b ≠ .list []) :
    wrapperForward cfg (a :: b :: rest) kw
      = .ok { model := cfg.model
              api_key := cfg.api_key
              base_url := cfg.base_url
              messages := ensureList b
              extraPositional := rest }
    ∧ wrapperForward cfg (a :: b :: rest) kw
      = wrapperForward cfg (a' :: b :: rest) kw := by
  constructor
  · simp [wrapperForward, h]
  · simp [wrapperForward]

/-- C10 witness: the concrete call of
test_completion_with_two_positional_args — the model string passed first is
ignored, the configured model is forwarded, the second positional argument
is the messages list, and no positional arguments are left over. -/
theorem completion_positional_model_ignored_witness :
    wrapperForward testLLMConfig
        [.scalar (.str "some-model-to-be-ignored"),
         .list [.dict [("role", "user"), ("content", "Hello from positional args!")]]]
        none
      = .ok { model := "openai/gpt-4o"
              api_key := some "test_key"
              base_url := none
              messages := .list
                [.dict [("role", "user"), ("content", "Hello from positional args!")]]
              extraPositional := [] } :=
  (completion_positional_model_ignored testLLMConfig
    (.scalar (.str "some-model-to-be-ignored"))
    (.scalar (.str "other"))
    (.list [.dict [("role", "user"), ("content", "Hello from positional args!")]])
    [] none (by decide)).1

end OpenHands
